import Mathlib

/-!
# Haptic control core: embedding of `haptic_lib.cpp`

The six API functions of `haptic_lib.cpp` and its servo callback are embedded
as state transformers over the file-scope globals.  Every call into the vendor
device library is recorded in a trace, and every value the device returns to
the code (readings, handles, the result of each `hdGetError()`) is an explicit
argument of the function that asks for it.

Doubles are read as the exact numbers they denote: every finite double is a
rational, so vector components are of type `ℚ`.

The copy of the shared sample between the servo thread and its readers is
embedded a second time, statement by statement, as a step function over
schedules of the threads.
-/

namespace Haptic

/-! ## Data model -/

/-- Three doubles (`hduVector3Dd`, `std::array<double, 3>`, `double[3]`). -/
structure Vec3 where
  x : ℚ
  y : ℚ
  z : ℚ
  deriving DecidableEq, Repr

/-- Component `i` of a vector (`v[i]` in the source). -/
def Vec3.get (v : Vec3) (i : Fin 3) : ℚ :=
  match i with
  | 0 => v.x
  | 1 => v.y
  | 2 => v.z

/-- Modelled from the spec: the vendor type `HDErrorInfo` is declared in
`HD/hd.h`, which is not in the repository; the spec gives it as
`{code: int, internalCode: int}`. -/
structure HDErrorInfo where
  errorCode : Int
  internalErrorCode : Int
  deriving DecidableEq, Repr

/-- Modelled from the spec: the vendor constant `HD_SUCCESS` of `HD/hd.h` is
not in the repository; it is the error code of "no error", 0 in the vendor
header. -/
def HD_SUCCESS : Int := 0

/-- Modelled from the spec: the vendor test `HD_DEVICE_ERROR(err)` of `HD/hd.h`
is not in the repository; an error is present when the code differs from
`HD_SUCCESS` (the spec's `{code, internalCode} | none`). -/
def HD_DEVICE_ERROR (err : HDErrorInfo) : Bool :=
  err.errorCode != HD_SUCCESS

/-- Modelled from the spec: the vendor constant `HD_INVALID_HANDLE` of
`HD/hd.h` is not in the repository; it is the one value of the unsigned handle
type `HHD` that names no device.  No theorem depends on which value it is. -/
def HD_INVALID_HANDLE : Nat := 0xFFFFFFFF

/-- The `Sample` struct of `haptic_lib.h`. -/
structure Sample where
  pos : Vec3
  force : Vec3
  buttons : Int
  errorCode : Int
  internalErrorCode : Int
  deriving DecidableEq, Repr

/-- The file-scope globals of `haptic_lib.cpp`, together with the function-local
static `lastButtons` of `servoCallback`.  The other function-local static,
`logCounter`, is left out: the only code that touched it is commented out. -/
structure State where
  running : Bool
  g_lastSample : Sample
  g_sampleCounter : Nat
  g_hHD : Nat
  g_hCallback : Nat
  warmMotorCount : Int
  lastButtons : Int
  deriving DecidableEq, Repr

/-- Lines written to stderr, one constructor per `fprintf` of the source. -/
inductive Msg where
  | debugRawButtons (buttons : Int)
  | warnPersistentWarm
  | errInitDevice (err : HDErrorInfo)
  | debugDeviceReady
  | errStartScheduler (err : HDErrorInfo)
  | debugSchedulerStarted
  | warnSkipForce
  | errSetForce (err : HDErrorInfo) (v : Vec3)
  | errUnschedule (err : HDErrorInfo)
  | errStopScheduler (err : HDErrorInfo)
  | errDisableDevice (err : HDErrorInfo)
  | debugStopped
  deriving DecidableEq, Repr

/-- Calls that leave the library: device and scheduler calls, sleeps and stderr
output, in the order the code issues them.  `hdGetCurrentDevice()` only feeds
the argument of the frame brackets and is folded into them. -/
inductive Call where
  | hdBeginFrame
  | hdEndFrame
  | hdGetPosition
  | hdGetForce
  | hdGetButtons
  | hdGetError
  | hdDisableForceOutput
  | hdEnableForceOutput
  | hdSetForce (v : Vec3)
  | hdInitDevice
  | hdGetString
  | hdStartScheduler
  | hdScheduleAsynchronous
  | hdUnschedule (h : Nat)
  | hdStopScheduler
  | hdDisableDevice (h : Nat)
  | sleepMs (ms : Nat)
  | stderr (m : Msg)
  deriving DecidableEq, Repr

/-- Return value of a scheduler callback. -/
inductive HDCallbackCode where
  | HD_CALLBACK_DONE
  | HD_CALLBACK_CONTINUE
  deriving DecidableEq, Repr

/-- What the device hands to one servo frame: the three readings and the result
of the frame's `hdGetError()`. -/
structure Frame where
  pos : Vec3
  force : Vec3
  buttons : Int
  err : HDErrorInfo
  deriving DecidableEq, Repr

/-- Outcome of a call: the globals afterwards, the calls issued, and the value
returned. -/
structure Outcome (ρ : Type) where
  state : State
  trace : List Call
  ret : ρ

/-! ## Machine arithmetic -/

/-- Wrap-around of a 32-bit signed integer (`std::atomic<int>` arithmetic). -/
def wrapInt32 (v : Int) : Int :=
  (v + 2 ^ 31) % 2 ^ 32 - 2 ^ 31

/-- Wrap-around of a 64-bit unsigned integer (`std::atomic<uint64_t>`). -/
def wrapUInt64 (v : Nat) : Nat :=
  v % 2 ^ 64

/-- The function `std::min(a, b)`: `b` when `b < a`, else `a`. -/
def stdMin (a b : ℚ) : ℚ :=
  if b < a then b else a

/-- The function `std::max(a, b)`: `b` when `a < b`, else `a`. -/
def stdMax (a b : ℚ) : ℚ :=
  if a < b then b else a

/-! ## The servo callback -/

/-- The thermal branch of `servoCallback` (source lines 37 to 64): the calls it
issues and the new value of `warmMotorCount`. -/
def thermalStep (err : HDErrorInfo) (warmMotorCount : Int) : List Call × Int :=
  if HD_DEVICE_ERROR err then
    if err.errorCode = 1024 then
      let w := wrapInt32 (warmMotorCount + 1)
      if w > 1000 then
        ([Call.sleepMs 20, Call.stderr Msg.warnPersistentWarm, Call.hdDisableForceOutput,
          Call.sleepMs 1000, Call.hdEnableForceOutput], 0)
      else
        ([Call.sleepMs 20], w)
    else
      ([], 0)
  else
    ([], 0)

/-- The function `servoCallback`: one servo frame. -/
def servoCallback (fr : Frame) (s : State) : Outcome HDCallbackCode :=
  let reads := [Call.hdBeginFrame, Call.hdGetPosition, Call.hdGetForce, Call.hdGetButtons]
  let dbg := if fr.buttons ≠ s.lastButtons then [Call.stderr (Msg.debugRawButtons fr.buttons)] else []
  let lastButtons := if fr.buttons ≠ s.lastButtons then fr.buttons else s.lastButtons
  let sample : Sample :=
    { pos := fr.pos, force := fr.force, buttons := fr.buttons,
      errorCode := fr.err.errorCode, internalErrorCode := fr.err.internalErrorCode }
  let th := thermalStep fr.err s.warmMotorCount
  { state :=
      { s with
        g_lastSample := sample
        lastButtons := lastButtons
        warmMotorCount := th.2
        g_sampleCounter := wrapUInt64 (s.g_sampleCounter + 1) }
    trace := reads ++ dbg ++ [Call.hdGetError] ++ th.1 ++ [Call.hdEndFrame]
    ret := if s.running then HDCallbackCode.HD_CALLBACK_CONTINUE
           else HDCallbackCode.HD_CALLBACK_DONE }

/-! ## The API functions -/

/-- The function `haptic_init`; `h` is the handle returned by `hdInitDevice`
and `err` the result of the following `hdGetError()`. -/
def haptic_init (h : Nat) (err : HDErrorInfo) (s : State) : Outcome Int :=
  let s1 := { s with g_hHD := h }
  if HD_DEVICE_ERROR err then
    { state := s1
      trace := [Call.hdInitDevice, Call.hdGetError, Call.stderr (Msg.errInitDevice err)]
      ret := 1 }
  else
    { state := s1
      trace := [Call.hdInitDevice, Call.hdGetError, Call.sleepMs 1000, Call.hdGetString,
                Call.stderr Msg.debugDeviceReady, Call.hdEnableForceOutput]
      ret := 0 }

/-- The function `haptic_start`; `err` is the result of `hdGetError()` after
`hdStartScheduler()` and `h` the handle returned by `hdScheduleAsynchronous`. -/
def haptic_start (err : HDErrorInfo) (h : Nat) (s : State) : Outcome Int :=
  if HD_DEVICE_ERROR err then
    { state := s
      trace := [Call.hdStartScheduler, Call.hdGetError, Call.stderr (Msg.errStartScheduler err)]
      ret := 1 }
  else
    { state := { s with g_hCallback := h }
      trace := [Call.hdStartScheduler, Call.hdGetError, Call.hdScheduleAsynchronous,
                Call.stderr Msg.debugSchedulerStarted]
      ret := 0 }

/-- The function `haptic_get_sample`: a field-by-field copy of `g_lastSample`. -/
def haptic_get_sample (s : State) : Sample :=
  { pos := s.g_lastSample.pos
    force := s.g_lastSample.force
    buttons := s.g_lastSample.buttons
    errorCode := s.g_lastSample.errorCode
    internalErrorCode := s.g_lastSample.internalErrorCode }

/-- The function `haptic_get_sample_count`. -/
def haptic_get_sample_count (s : State) : Nat :=
  s.g_sampleCounter

/-- The function `haptic_set_force`; `pre` is the result of the `hdGetError()`
made before the write and `post` the result of the one made after it. -/
def haptic_set_force (force : Vec3) (pre post : HDErrorInfo) (s : State) : Outcome Unit :=
  if s.g_hHD ≠ HD_INVALID_HANDLE then
    if HD_DEVICE_ERROR pre && pre.errorCode == 1024 then
      { state := s, trace := [Call.hdGetError, Call.stderr Msg.warnSkipForce], ret := () }
    else
      let max_force : ℚ := 2
      let clamped_force : Vec3 :=
        { x := stdMax (stdMin force.x max_force) (-max_force)
          y := stdMax (stdMin force.y max_force) (-max_force)
          z := stdMax (stdMin force.z max_force) (-max_force) }
      let frame := [Call.hdGetError, Call.hdBeginFrame, Call.hdSetForce clamped_force,
                    Call.hdEndFrame, Call.hdGetError]
      if HD_DEVICE_ERROR post then
        { state :=
            { s with
              g_lastSample :=
                { s.g_lastSample with
                  errorCode := post.errorCode
                  internalErrorCode := post.internalErrorCode } }
          trace := frame ++ [Call.stderr (Msg.errSetForce post clamped_force)]
          ret := () }
      else
        { state := s, trace := frame, ret := () }
  else
    { state := s, trace := [], ret := () }

/-- The function `haptic_stop`; `e1`, `e2`, `e3` are the results of the
`hdGetError()` calls after unschedule, scheduler stop and device disable. -/
def haptic_stop (e1 e2 e3 : HDErrorInfo) (s : State) : Outcome Unit :=
  let s0 := { s with running := false }
  let t1 :=
    if s0.g_hCallback ≠ 0 then
      [Call.hdUnschedule s0.g_hCallback, Call.hdGetError] ++
        (if HD_DEVICE_ERROR e1 then [Call.stderr (Msg.errUnschedule e1)] else [])
    else []
  let s1 := if s0.g_hCallback ≠ 0 then { s0 with g_hCallback := 0 } else s0
  let t2 :=
    if s1.g_hHD ≠ HD_INVALID_HANDLE then
      [Call.hdStopScheduler, Call.hdGetError] ++
        (if HD_DEVICE_ERROR e2 then [Call.stderr (Msg.errStopScheduler e2)] else []) ++
        [Call.hdDisableDevice s1.g_hHD, Call.hdGetError] ++
        (if HD_DEVICE_ERROR e3 then [Call.stderr (Msg.errDisableDevice e3)] else [])
    else []
  let s2 := if s1.g_hHD ≠ HD_INVALID_HANDLE then { s1 with g_hHD := HD_INVALID_HANDLE } else s1
  { state := s2, trace := t1 ++ t2 ++ [Call.stderr Msg.debugStopped], ret := () }

/-! ## Runs -/

/-- One step of a run: a servo frame or an API call, with the values the
device returns to it. -/
inductive Op where
  | servo (fr : Frame)
  | init (h : Nat) (err : HDErrorInfo)
  | start (err : HDErrorInfo) (h : Nat)
  | getSample
  | getSampleCount
  | setForce (force : Vec3) (pre post : HDErrorInfo)
  | stop (e1 e2 e3 : HDErrorInfo)
  deriving DecidableEq, Repr

/-- Globals and calls issued by one step. -/
def step (op : Op) (s : State) : State × List Call :=
  match op with
  | Op.servo fr => ((servoCallback fr s).state, (servoCallback fr s).trace)
  | Op.init h err => ((haptic_init h err s).state, (haptic_init h err s).trace)
  | Op.start err h => ((haptic_start err h s).state, (haptic_start err h s).trace)
  | Op.getSample => (s, [])
  | Op.getSampleCount => (s, [])
  | Op.setForce f pre post =>
      ((haptic_set_force f pre post s).state, (haptic_set_force f pre post s).trace)
  | Op.stop e1 e2 e3 => ((haptic_stop e1 e2 e3 s).state, (haptic_stop e1 e2 e3 s).trace)

/-- Globals after a sequence of steps, and all calls issued, in order. -/
def run (ops : List Op) (s : State) : State × List Call :=
  match ops with
  | [] => (s, [])
  | op :: rest =>
      let r := step op s
      let q := run rest r.1
      (q.1, r.2 ++ q.2)

/-- The globals as the static initialisers of the source leave them. -/
def initState : State :=
  { running := true
    g_lastSample :=
      { pos := ⟨0, 0, 0⟩, force := ⟨0, 0, 0⟩, buttons := 0, errorCode := 0,
        internalErrorCode := 0 }
    g_sampleCounter := 0
    g_hHD := HD_INVALID_HANDLE
    g_hCallback := 0
    warmMotorCount := 0
    lastButtons := -1 }

/-- Whether a step is a servo frame. -/
def Op.isServo (op : Op) : Bool :=
  match op with
  | Op.servo _ => true
  | _ => false

/-- Number of servo frames in a run. -/
def countServo (ops : List Op) : Nat :=
  (ops.filter Op.isServo).length

/-- Whether a step is a call of `haptic_stop`. -/
def Op.isStop (op : Op) : Bool :=
  match op with
  | Op.stop _ _ _ => true
  | _ => false

/-- The vectors written to the device by `hdSetDoublev(HD_CURRENT_FORCE, ..)`. -/
def forceWrites (t : List Call) : List Vec3 :=
  t.filterMap (fun c => match c with | Call.hdSetForce v => some v | _ => none)

/-- Whether a call is an error query or stderr output, as opposed to a command
to the device or scheduler. -/
def Call.isQueryOrLog (c : Call) : Bool :=
  match c with
  | Call.hdGetError => true
  | Call.stderr _ => true
  | _ => false

/-- The commands of a trace: everything but error queries and stderr output. -/
def commands (t : List Call) : List Call :=
  t.filter (fun c => !c.isQueryOrLog)

/-- Whether a frame reports the warm-motor fault (error code 1024). -/
def Frame.isWarm (fr : Frame) : Bool :=
  HD_DEVICE_ERROR fr.err && fr.err.errorCode == 1024

/-! ## The sample copy, statement by statement

`servoCallback` fills `g_lastSample` with five separate stores (source lines
29 to 35) and `haptic_get_sample` copies it out with five separate loads
(lines 103 to 107); neither takes a lock.  Here one thread runs servo frames
and any number of threads run `haptic_get_sample`, and a schedule says which
thread executes its next statement.  Each thread keeps its own program order. -/

/-- The sample one servo frame commits once its five stores are done. -/
def Frame.sample (fr : Frame) : Sample :=
  { pos := fr.pos, force := fr.force, buttons := fr.buttons,
    errorCode := fr.err.errorCode, internalErrorCode := fr.err.internalErrorCode }

/-- Store number `k` of `servoCallback` into `g_lastSample`: lines 29, 30, 31,
34 and 35 of the source, in that order. -/
def storeField (k : Nat) (fr : Frame) (g : Sample) : Sample :=
  match k with
  | 0 => { g with pos := fr.pos }
  | 1 => { g with force := fr.force }
  | 2 => { g with buttons := fr.buttons }
  | 3 => { g with errorCode := fr.err.errorCode }
  | _ => { g with internalErrorCode := fr.err.internalErrorCode }

/-- Load number `k` of `haptic_get_sample` from `g_lastSample` `g` into the
caller's struct `out`: lines 103 to 107 of the source, in that order. -/
def loadField (k : Nat) (g out : Sample) : Sample :=
  match k with
  | 0 => { out with pos := g.pos }
  | 1 => { out with force := g.force }
  | 2 => { out with buttons := g.buttons }
  | 3 => { out with errorCode := g.errorCode }
  | _ => { out with internalErrorCode := g.internalErrorCode }

/-- A thread calling `haptic_get_sample` over and over: the load it executes
next, the struct it copies into, and the samples its finished calls returned
(latest first). -/
structure Reader where
  pc : Nat
  out : Sample
  returned : List Sample
  deriving DecidableEq, Repr

/-- The threads around `g_lastSample`: its contents, the frames the servo
thread has yet to finish (the head is the one in progress), the store the
servo thread executes next, and the readers. -/
structure Conc where
  shared : Sample
  pending : List Frame
  wpc : Nat
  readers : List Reader
  deriving DecidableEq, Repr

/-- The threads before anything has run: `g_lastSample` holds `g0`, the servo
thread is about to run `frames`, and there is one idle reader per entry of
`outs`, the struct it will copy into. -/
def Conc.start (g0 : Sample) (frames : List Frame) (outs : List Sample) : Conc :=
  { shared := g0
    pending := frames
    wpc := 0
    readers := outs.map (fun o => { pc := 0, out := o, returned := [] }) }

/-- No error pending. -/
def noError : HDErrorInfo := ⟨0, 0⟩

/-- The warm-motor fault. -/
def warmError : HDErrorInfo := ⟨1024, 0⟩

/-- A frame reporting the warm-motor fault. -/
def warmFrame : Frame :=
  { pos := ⟨0, 0, 0⟩, force := ⟨0, 0, 0⟩, buttons := 0, err := warmError }

/-- A frame reporting no fault. -/
def calmFrame : Frame :=
  { pos := ⟨1, 2, 3⟩, force := ⟨0, 0, 0⟩, buttons := 0, err := noError }

/-- A fault other than the warm-motor one. -/
def writeFault : HDErrorInfo := ⟨769, 3⟩

/-- The globals after a successful `haptic_init` (device handle 0) and
`haptic_start` (callback handle 1). -/
def readyState : State :=
  (run [Op.init 0 noError, Op.start noError 1] initState).1

/-- The globals after `readyState` has seen one servo frame that reported the
warm-motor fault. -/
def warmedState : State :=
  (run [Op.servo warmFrame] readyState).1

/-- A short run mixing servo frames with reads and a force command. -/
def sampleRun : List Op :=
  [Op.servo calmFrame, Op.getSample, Op.setForce ⟨3, 0, -5⟩ noError writeFault,
   Op.servo warmFrame, Op.getSampleCount]

/-! ## Clamping -/

/-- One axis of the clamp of `haptic_set_force`, characterised. -/
theorem clamp_axis (c : ℚ) :
    (|c| > 2 → stdMax (stdMin c 2) (-2) = 2 * (SignType.sign c : ℚ)) ∧
    (|c| ≤ 2 → stdMax (stdMin c 2) (-2) = c) ∧
    -2 ≤ stdMax (stdMin c 2) (-2) ∧ stdMax (stdMin c 2) (-2) ≤ 2 := by
  refine ⟨?_, ?_, ?_, ?_⟩
  · intro h
    rcases lt_abs.mp h with hp | hn
    · have h0 : (0 : ℚ) < c := by linarith
      rw [sign_pos h0]
      simp only [stdMax, stdMin]
      split_ifs <;> first | linarith | norm_num
    · have h0 : c < 0 := by linarith
      rw [sign_neg h0]
      simp only [stdMax, stdMin]
      split_ifs <;> first | linarith | norm_num
  · intro h
    obtain ⟨h1, h2⟩ := abs_le.mp h
    simp only [stdMax, stdMin]
    split_ifs <;> linarith
  · simp only [stdMax, stdMin]
    split_ifs <;> linarith
  · simp only [stdMax, stdMin]
    split_ifs <;> linarith

/-- The trace of a call of `haptic_set_force` that is not skipped holds one
force write, of the clamped vector. -/
theorem forceWrites_set_force (force : Vec3) (pre post : HDErrorInfo) (s : State)
    (hvalid : s.g_hHD ≠ HD_INVALID_HANDLE)
    (hnoskip : ¬ (HD_DEVICE_ERROR pre = true ∧ pre.errorCode = 1024)) :
    forceWrites (haptic_set_force force pre post s).trace =
      [⟨stdMax (stdMin force.x 2) (-2), stdMax (stdMin force.y 2) (-2),
        stdMax (stdMin force.z 2) (-2)⟩] := by
  have hs : (HD_DEVICE_ERROR pre && pre.errorCode == 1024) = false := by
    cases hd : HD_DEVICE_ERROR pre
    · simp
    · have : pre.errorCode ≠ 1024 := fun hc => hnoskip ⟨hd, hc⟩
      simp [this]
  unfold haptic_set_force
  rw [if_pos hvalid, hs]
  cases HD_DEVICE_ERROR post <;> simp [forceWrites]

/-- C1: a call of `haptic_set_force` with a valid device handle that the
warm-motor check does not skip writes exactly one force vector to the device,
fixed axis by axis: a component `c` with `|c| > 2` is written as `2 * sign c`,
a component with `|c| ≤ 2` as `c` itself, and every written component lies in
`[-2, 2]`. -/
theorem haptic_set_force_clamps (force : Vec3) (pre post : HDErrorInfo) (s : State)
    (hvalid : s.g_hHD ≠ HD_INVALID_HANDLE)
    (hnoskip : ¬ (HD_DEVICE_ERROR pre = true ∧ pre.errorCode = 1024)) :
    ∃ w : Vec3, forceWrites (haptic_set_force force pre post s).trace = [w] ∧
      ∀ i : Fin 3,
        (|force.get i| > 2 → w.get i = 2 * (SignType.sign (force.get i) : ℚ)) ∧
        (|force.get i| ≤ 2 → w.get i = force.get i) ∧
        -2 ≤ w.get i ∧ w.get i ≤ 2 := by
  refine ⟨_, forceWrites_set_force force pre post s hvalid hnoskip, ?_⟩
  intro i
  fin_cases i
  · exact clamp_axis force.x
  · exact clamp_axis force.y
  · exact clamp_axis force.z

/-! ## Runs: general facts -/

/-- A run of two sequences one after the other. -/
theorem run_append (a b : List Op) (s : State) :
    run (a ++ b) s = ((run b (run a s).1).1, (run a s).2 ++ (run b (run a s).1).2) := by
  induction a generalizing s with
  | nil => simp [run]
  | cons op rest ih => simp [run, ih, List.append_assoc]

/-- A run of a single step. -/
theorem run_single (op : Op) (s : State) : run [op] s = step op s := by
  simp [run]

/-! ## Thermal guard -/

/-- A warm frame has error code 1024. -/
theorem isWarm_code (fr : Frame) (h : fr.isWarm = true) : fr.err.errorCode = 1024 := by
  simp [Frame.isWarm] at h
  exact h.2

/-- A warm frame below the threshold raises the counter by one and only
sleeps. -/
theorem thermalStep_warm (err : HDErrorInfo) (c : Int) (hw : err.errorCode = 1024)
    (h0 : 0 ≤ c) (h1 : c < 1000) :
    thermalStep err c = ([Call.sleepMs 20], c + 1) := by
  have hd : HD_DEVICE_ERROR err = true := by simp [HD_DEVICE_ERROR, HD_SUCCESS, hw]
  have hwrap : wrapInt32 (c + 1) = c + 1 := by
    unfold wrapInt32
    omega
  have hle : ¬ (c + 1 > 1000) := by omega
  simp [thermalStep, hd, hw, hwrap, hle]

/-- A warm frame at counter 1000 disables force output, sleeps, enables it
again and resets the counter. -/
theorem thermalStep_trip (err : HDErrorInfo) (hw : err.errorCode = 1024) :
    thermalStep err 1000 =
      ([Call.sleepMs 20, Call.stderr Msg.warnPersistentWarm, Call.hdDisableForceOutput,
        Call.sleepMs 1000, Call.hdEnableForceOutput], 0) := by
  have hd : HD_DEVICE_ERROR err = true := by simp [HD_DEVICE_ERROR, HD_SUCCESS, hw]
  have hwrap : wrapInt32 (1000 + 1) = 1001 := by
    unfold wrapInt32
    omega
  have hgt : wrapInt32 (1000 + 1) > 1000 := by
    rw [hwrap]; omega
  unfold thermalStep
  rw [if_pos hd, if_pos hw]
  exact if_pos hgt

/-- A frame that is not warm resets the counter and issues nothing. -/
theorem thermalStep_calm (err : HDErrorInfo) (c : Int)
    (hc : (HD_DEVICE_ERROR err && err.errorCode == 1024) = false) :
    thermalStep err c = ([], 0) := by
  unfold thermalStep
  cases hd : HD_DEVICE_ERROR err
  · simp
  · have : err.errorCode ≠ 1024 := by
      intro h
      simp [hd, h] at hc
    simp [this]

/-- Force output is not disabled by a servo frame outside the thermal branch. -/
theorem count_disable_servo (fr : Frame) (s : State) :
    List.count Call.hdDisableForceOutput (servoCallback fr s).trace =
      List.count Call.hdDisableForceOutput (thermalStep fr.err s.warmMotorCount).1 := by
  unfold servoCallback
  by_cases hb : fr.buttons = s.lastButtons <;> simp [hb, List.count_cons]

/-- The warm counter after a servo frame is the one the thermal branch
computes. -/
theorem warm_servo (fr : Frame) (s : State) :
    (servoCallback fr s).state.warmMotorCount = (thermalStep fr.err s.warmMotorCount).2 := by
  simp [servoCallback]

/-- A streak of warm frames that keeps the counter at or below 1000 raises it
by one per frame and never disables force output. -/
theorem run_warm_streak (warm : List Frame) (hwarm : ∀ fr ∈ warm, fr.isWarm = true) :
    ∀ s : State, 0 ≤ s.warmMotorCount → s.warmMotorCount + warm.length ≤ 1000 →
      (run (warm.map Op.servo) s).1.warmMotorCount = s.warmMotorCount + warm.length ∧
      List.count Call.hdDisableForceOutput (run (warm.map Op.servo) s).2 = 0 := by
  induction warm with
  | nil => intro s _ _; simp [run]
  | cons fr rest ih =>
    intro s h0 hle
    have hcode := isWarm_code fr (hwarm fr (List.mem_cons_self _ _))
    have hlen : ((fr :: rest).length : Int) = (rest.length : Int) + 1 := by simp
    have hth := thermalStep_warm fr.err s.warmMotorCount hcode h0 (by omega)
    have hw1 : (servoCallback fr s).state.warmMotorCount = s.warmMotorCount + 1 := by
      rw [warm_servo, hth]
    have hc1 : List.count Call.hdDisableForceOutput (servoCallback fr s).trace = 0 := by
      rw [count_disable_servo, hth]; simp
    have hrest := ih (fun g hg => hwarm g (List.mem_cons_of_mem _ hg))
      (servoCallback fr s).state (by omega) (by omega)
    simp only [List.map_cons, run, step, List.count_append]
    refine ⟨?_, ?_⟩
    · rw [hrest.1, hw1]; omega
    · rw [hc1, hrest.2]

/-- C4: from a warm counter of 0, `n ≤ 1000` consecutive servo frames that each
report the warm-motor fault bring the counter to `n`; one further frame that
reports no fault or another fault leaves the counter at 0, and force output is
not disabled anywhere in the run. -/
theorem warm_streak_then_reset (n : Nat) (warm : List Frame) (last : Frame) (s : State)
    (hn : n ≤ 1000) (hlen : warm.length = n)
    (hwarm : ∀ fr ∈ warm, fr.isWarm = true) (hlast : last.isWarm = false)
    (h0 : s.warmMotorCount = 0) :
    (run (warm.map Op.servo) s).1.warmMotorCount = n ∧
    (run (warm.map Op.servo ++ [Op.servo last]) s).1.warmMotorCount = 0 ∧
    List.count Call.hdDisableForceOutput
      (run (warm.map Op.servo ++ [Op.servo last]) s).2 = 0 := by
  have hstreak := run_warm_streak warm hwarm s (by omega) (by omega)
  have hcalm := thermalStep_calm last.err (run (warm.map Op.servo) s).1.warmMotorCount hlast
  refine ⟨?_, ?_, ?_⟩
  · rw [hstreak.1, h0, hlen]; simp
  · rw [run_append, run_single]
    simp only [step]
    rw [warm_servo, hcalm]
  · rw [run_append, run_single]
    simp only [step, List.count_append]
    rw [hstreak.2, count_disable_servo, hcalm]
    simp

/-- C2 fails as stated: on the initial globals, after exactly 1000 consecutive
servo frames that each report the warm-motor fault, the warm counter is 1000,
not 0, and force output has been disabled 0 times, not once. -/
theorem warm_1000_frames_do_not_disable :
    (run (List.replicate 1000 (Op.servo warmFrame)) initState).1.warmMotorCount = 1000 ∧
    List.count Call.hdDisableForceOutput
      (run (List.replicate 1000 (Op.servo warmFrame)) initState).2 = 0 ∧
    ¬ (List.count Call.hdDisableForceOutput
        (run (List.replicate 1000 (Op.servo warmFrame)) initState).2 = 1 ∧
      (run (List.replicate 1000 (Op.servo warmFrame)) initState).1.warmMotorCount = 0) := by
  have hmap : List.replicate 1000 (Op.servo warmFrame)
      = (List.replicate 1000 warmFrame).map Op.servo := by
    rw [List.map_replicate]
  have hwarm : ∀ fr ∈ List.replicate 1000 warmFrame, fr.isWarm = true := by
    intro fr hfr
    rw [List.eq_of_mem_replicate hfr]
    decide
  have hstreak := run_warm_streak (List.replicate 1000 warmFrame) hwarm initState
    (by decide) (by rw [List.length_replicate]; decide)
  rw [← hmap, List.length_replicate] at hstreak
  have hcount : (run (List.replicate 1000 (Op.servo warmFrame)) initState).1.warmMotorCount
      = 1000 := by
    rw [hstreak.1]; decide
  refine ⟨hcount, hstreak.2, ?_⟩
  rintro ⟨h1, _⟩
  rw [hstreak.2] at h1
  exact absurd h1 (by decide)

/-- C2, as amended: from a warm counter of 0, after exactly 1001 consecutive
servo frames that each report the warm-motor fault, force output has been
disabled exactly once and the warm counter is 0; after the first 1000 of them
the counter is 1000 and force output has not been disabled. -/
theorem warm_1001_frames_disable_once (warm : List Frame) (s : State)
    (hlen : warm.length = 1001) (hwarm : ∀ fr ∈ warm, fr.isWarm = true)
    (h0 : s.warmMotorCount = 0) :
    (run ((warm.take 1000).map Op.servo) s).1.warmMotorCount = 1000 ∧
    List.count Call.hdDisableForceOutput (run ((warm.take 1000).map Op.servo) s).2 = 0 ∧
    (run (warm.map Op.servo) s).1.warmMotorCount = 0 ∧
    List.count Call.hdDisableForceOutput (run (warm.map Op.servo) s).2 = 1 := by
  have htake : (warm.take 1000).length = 1000 := by
    rw [List.length_take, hlen]; decide
  have hdrop : (warm.drop 1000).length = 1 := by
    rw [List.length_drop, hlen]
  obtain ⟨x, hx⟩ := List.length_eq_one.mp hdrop
  have hsplit : warm = warm.take 1000 ++ [x] := by
    rw [← hx, List.take_append_drop]
  have hxwarm : x.isWarm = true := by
    apply hwarm
    rw [hsplit]
    simp
  have hfirst : ∀ fr ∈ warm.take 1000, fr.isWarm = true :=
    fun fr hfr => hwarm fr (List.mem_of_mem_take hfr)
  have hstreak := run_warm_streak (warm.take 1000) hfirst s (by omega) (by omega)
  have hcount : (run ((warm.take 1000).map Op.servo) s).1.warmMotorCount = 1000 := by
    rw [hstreak.1, h0, htake]; decide
  have htrip := thermalStep_trip x.err (isWarm_code x hxwarm)
  have hmap : warm.map Op.servo = (warm.take 1000).map Op.servo ++ [Op.servo x] := by
    conv_lhs => rw [hsplit]
    rw [List.map_append, List.map_singleton]
  refine ⟨hcount, hstreak.2, ?_, ?_⟩
  · rw [hmap, run_append, run_single]
    simp only [step]
    rw [warm_servo, hcount, htrip]
  · rw [hmap, run_append, run_single]
    simp only [step, List.count_append]
    rw [hstreak.2, count_disable_servo, hcount, htrip]
    decide

/-! ## Shutdown -/

/-- After `haptic_stop` the callback handle is 0, the device handle is invalid
and the running flag is false. -/
theorem haptic_stop_handles (e1 e2 e3 : HDErrorInfo) (s : State) :
    (haptic_stop e1 e2 e3 s).state.g_hCallback = 0 ∧
    (haptic_stop e1 e2 e3 s).state.g_hHD = HD_INVALID_HANDLE ∧
    (haptic_stop e1 e2 e3 s).state.running = false := by
  by_cases h1 : s.g_hCallback = 0 <;> by_cases h2 : s.g_hHD = HD_INVALID_HANDLE <;>
    simp [haptic_stop, h1, h2]

/-- On globals whose handles are already cleared and whose running flag is
already false, `haptic_stop` changes nothing and only prints its last line. -/
theorem haptic_stop_cleared (f1 f2 f3 : HDErrorInfo) (t : State)
    (h1 : t.g_hCallback = 0) (h2 : t.g_hHD = HD_INVALID_HANDLE) (h3 : t.running = false) :
    (haptic_stop f1 f2 f3 t).state = t ∧
    (haptic_stop f1 f2 f3 t).trace = [Call.stderr Msg.debugStopped] := by
  cases t
  simp only at h1 h2 h3
  subst h1 h2 h3
  simp [haptic_stop]

/-- C5: `haptic_stop` is idempotent.  Whatever the globals and whatever errors
the device reports, a second `haptic_stop` right after a first leaves every
global as the first call left it, and issues no device or scheduler command:
its whole trace is the final stderr line. -/
theorem haptic_stop_idempotent (e1 e2 e3 f1 f2 f3 : HDErrorInfo) (s : State) :
    (haptic_stop f1 f2 f3 (haptic_stop e1 e2 e3 s).state).state = (haptic_stop e1 e2 e3 s).state ∧
    (haptic_stop f1 f2 f3 (haptic_stop e1 e2 e3 s).state).trace = [Call.stderr Msg.debugStopped] ∧
    commands (haptic_stop f1 f2 f3 (haptic_stop e1 e2 e3 s).state).trace = [] := by
  obtain ⟨h1, h2, h3⟩ := haptic_stop_handles e1 e2 e3 s
  obtain ⟨hs, ht⟩ := haptic_stop_cleared f1 f2 f3 (haptic_stop e1 e2 e3 s).state h1 h2 h3
  refine ⟨hs, ht, ?_⟩
  rw [ht]
  decide

/-- C6: with a callback scheduled and a valid device handle, `haptic_stop`
issues exactly the commands unschedule, scheduler stop, device disable, in that
order, whatever error each step reports. -/
theorem haptic_stop_teardown_order (e1 e2 e3 : HDErrorInfo) (s : State)
    (hcb : s.g_hCallback ≠ 0) (hdev : s.g_hHD ≠ HD_INVALID_HANDLE) :
    commands (haptic_stop e1 e2 e3 s).trace =
      [Call.hdUnschedule s.g_hCallback, Call.hdStopScheduler, Call.hdDisableDevice s.g_hHD] := by
  cases h1 : HD_DEVICE_ERROR e1 <;> cases h2 : HD_DEVICE_ERROR e2 <;>
    cases h3 : HD_DEVICE_ERROR e3 <;>
    simp [haptic_stop, commands, Call.isQueryOrLog, hcb, hdev, h1, h2, h3, List.filter]

/-! ## Sample counter -/

/-- The function `haptic_init` leaves the sample counter alone. -/
theorem init_counter (h : Nat) (err : HDErrorInfo) (s : State) :
    (haptic_init h err s).state.g_sampleCounter = s.g_sampleCounter := by
  unfold haptic_init
  split_ifs <;> rfl

/-- The function `haptic_start` leaves the sample counter alone. -/
theorem start_counter (err : HDErrorInfo) (h : Nat) (s : State) :
    (haptic_start err h s).state.g_sampleCounter = s.g_sampleCounter := by
  unfold haptic_start
  split_ifs <;> rfl

/-- The function `haptic_set_force` leaves the sample counter alone. -/
theorem set_force_counter (f : Vec3) (pre post : HDErrorInfo) (s : State) :
    (haptic_set_force f pre post s).state.g_sampleCounter = s.g_sampleCounter := by
  unfold haptic_set_force
  split_ifs <;> rfl

/-- The function `haptic_stop` leaves the sample counter alone. -/
theorem stop_counter (e1 e2 e3 : HDErrorInfo) (s : State) :
    (haptic_stop e1 e2 e3 s).state.g_sampleCounter = s.g_sampleCounter := by
  unfold haptic_stop
  simp only
  split_ifs <;> rfl

/-- Only a servo frame changes the sample counter, and it adds one modulo
`2 ^ 64`. -/
theorem step_counter (op : Op) (s : State) :
    (step op s).1.g_sampleCounter =
      if op.isServo then wrapUInt64 (s.g_sampleCounter + 1) else s.g_sampleCounter := by
  cases op with
  | servo fr => simp [step, servoCallback, Op.isServo]
  | init h err => simpa [step, Op.isServo] using init_counter h err s
  | start err h => simpa [step, Op.isServo] using start_counter err h s
  | getSample => rfl
  | getSampleCount => rfl
  | setForce f pre post => simpa [step, Op.isServo] using set_force_counter f pre post s
  | stop e1 e2 e3 => simpa [step, Op.isServo] using stop_counter e1 e2 e3 s

/-- The servo count of a run, by its first step. -/
theorem countServo_cons (op : Op) (rest : List Op) :
    countServo (op :: rest) = (if op.isServo then 1 else 0) + countServo rest := by
  cases h : op.isServo <;> simp [countServo, List.filter_cons, h, Nat.add_comm]

/-- The sample counter after a run that does not overflow it. -/
theorem run_counter (ops : List Op) :
    ∀ s : State, s.g_sampleCounter + countServo ops < 2 ^ 64 →
      (run ops s).1.g_sampleCounter = s.g_sampleCounter + countServo ops := by
  induction ops with
  | nil => intro s _; simp [run, countServo]
  | cons op rest ih =>
    intro s h
    have hstep := step_counter op s
    rw [countServo_cons] at h ⊢
    simp only [run]
    cases hs : op.isServo
    · rw [hs] at hstep h
      simp only [Bool.false_eq_true, if_false] at hstep h ⊢
      rw [ih _ (by rw [hstep]; omega), hstep]
      omega
    · rw [hs] at hstep h
      simp only [if_true] at hstep h ⊢
      have hw : wrapUInt64 (s.g_sampleCounter + 1) = s.g_sampleCounter + 1 := by
        unfold wrapUInt64
        exact Nat.mod_eq_of_lt (by omega)
      rw [ih _ (by rw [hstep, hw]; omega), hstep, hw]
      omega

/-- The servo count of two runs one after the other. -/
theorem countServo_append (a b : List Op) :
    countServo (a ++ b) = countServo a + countServo b := by
  simp [countServo]

/-- C7: from a sample counter of 0, after a run holding exactly `N < 2 ^ 64`
servo frames, interleaved with any API calls and fed any readings and errors,
`haptic_get_sample_count` returns exactly `N`; along the run every servo frame
raises the count by exactly 1 and every other step leaves it as it is. -/
theorem sample_count_counts_frames (N : Nat) (ops : List Op) (s : State)
    (hN : N < 2 ^ 64) (hcount : countServo ops = N) (h0 : s.g_sampleCounter = 0) :
    haptic_get_sample_count (run ops s).1 = N ∧
    ∀ (before : List Op) (op : Op) (after : List Op), ops = before ++ op :: after →
      haptic_get_sample_count (run (before ++ [op]) s).1 =
        haptic_get_sample_count (run before s).1 + (if op.isServo then 1 else 0) := by
  unfold haptic_get_sample_count
  refine ⟨?_, ?_⟩
  · rw [run_counter ops s (by rw [h0, hcount]; omega), h0, hcount]
    omega
  · intro before op after hsplit
    have hsum : countServo before + ((if op.isServo then 1 else 0) + countServo after) = N := by
      rw [← hcount, hsplit, countServo_append, countServo_cons]
    have hone : countServo (before ++ [op]) = countServo before + (if op.isServo then 1 else 0) := by
      rw [countServo_append, countServo_cons]
      simp [countServo]
    rw [run_counter (before ++ [op]) s (by rw [h0, hone]; omega),
      run_counter before s (by rw [h0]; omega), hone]
    omega

/-! ## Force commands -/

/-- C8: when `haptic_set_force` runs with a valid handle, is not skipped, and
the device reports an error after the write frame, the shared sample's
`errorCode` and `internalErrorCode` are that error, every other field of the
sample and every other global (sample counter, warm counter, handles, running
flag) is unchanged, and the call returns as usual: its result type has no
failure value. -/
theorem haptic_set_force_records_write_error (force : Vec3) (pre post : HDErrorInfo)
    (s : State) (hvalid : s.g_hHD ≠ HD_INVALID_HANDLE)
    (hnoskip : ¬ (HD_DEVICE_ERROR pre = true ∧ pre.errorCode = 1024))
    (herr : HD_DEVICE_ERROR post = true) :
    (haptic_set_force force pre post s).state =
      { s with
        g_lastSample :=
          { pos := s.g_lastSample.pos
            force := s.g_lastSample.force
            buttons := s.g_lastSample.buttons
            errorCode := post.errorCode
            internalErrorCode := post.internalErrorCode } } ∧
    (haptic_set_force force pre post s).ret = () := by
  have hs : (HD_DEVICE_ERROR pre && pre.errorCode == 1024) = false := by
    cases hd : HD_DEVICE_ERROR pre
    · simp
    · have : pre.errorCode ≠ 1024 := fun hc => hnoskip ⟨hd, hc⟩
      simp [this]
  unfold haptic_set_force
  rw [if_pos hvalid, hs]
  simp [herr]

/-- C3, as amended: with a valid handle, when the `hdGetError()` call that
`haptic_set_force` itself makes reports a device error with code 1024, the call
is a no-op: it writes no force, issues only that query and a stderr line, and
leaves every global, the shared sample included, unchanged.  The warm counter
plays no part. -/
theorem haptic_set_force_skips_on_own_query (force : Vec3) (pre post : HDErrorInfo)
    (s : State) (hvalid : s.g_hHD ≠ HD_INVALID_HANDLE)
    (hdev : HD_DEVICE_ERROR pre = true) (hcode : pre.errorCode = 1024) :
    (haptic_set_force force pre post s).state = s ∧
    (haptic_set_force force pre post s).trace = [Call.hdGetError, Call.stderr Msg.warnSkipForce] ∧
    forceWrites (haptic_set_force force pre post s).trace = [] := by
  have hs : (HD_DEVICE_ERROR pre && pre.errorCode == 1024) = true := by
    simp [hdev, hcode]
  unfold haptic_set_force
  rw [if_pos hvalid, hs]
  simp [forceWrites]

/-- C3 fails as stated: in `warmedState` the device handle is valid, the
latest servo frame observed code 1024 and the warm counter is 1, yet a
`haptic_set_force` whose own error query finds nothing writes the force to the
device. -/
theorem set_force_writes_with_warm_counter_nonzero :
    warmedState.g_hHD ≠ HD_INVALID_HANDLE ∧
    warmedState.warmMotorCount = 1 ∧
    warmedState.g_lastSample.errorCode = 1024 ∧
    forceWrites (haptic_set_force ⟨1, 0, 0⟩ noError noError warmedState).trace = [⟨1, 0, 0⟩] := by
  refine ⟨by decide, by decide, by decide, ?_⟩
  have hvalid : warmedState.g_hHD ≠ HD_INVALID_HANDLE := by decide
  rw [forceWrites_set_force _ _ _ _ hvalid (by decide)]
  simp only [stdMax, stdMin]
  norm_num

/-! ## Cooperative stop -/

/-- The running flag after one step: cleared by `haptic_stop`, kept by every
other step. -/
theorem step_running (op : Op) (s : State) :
    (step op s).1.running = (s.running && !op.isStop) := by
  cases op with
  | servo fr => simp [step, servoCallback, Op.isStop]
  | init h err => simp only [step, haptic_init, Op.isStop]; split_ifs <;> simp
  | start err h => simp only [step, haptic_start, Op.isStop]; split_ifs <;> simp
  | getSample => simp [step, Op.isStop]
  | getSampleCount => simp [step, Op.isStop]
  | setForce f pre post => simp only [step, haptic_set_force, Op.isStop]; split_ifs <;> simp
  | stop e1 e2 e3 => simp [step, Op.isStop, (haptic_stop_handles e1 e2 e3 s).2.2]

/-- The running flag after a run: still set exactly when it was set at the
start and no step was a `haptic_stop`. -/
theorem run_running (ops : List Op) :
    ∀ s : State, (run ops s).1.running = (s.running && ops.all (fun op => !op.isStop)) := by
  induction ops with
  | nil => intro s; simp [run]
  | cons op rest ih =>
    intro s
    simp only [run, List.all_cons]
    rw [ih, step_running, Bool.and_assoc]

/-- C10: after any sequence of API calls and servo frames from the initial
globals, a servo frame returns `HD_CALLBACK_CONTINUE` exactly when no
`haptic_stop` occurs earlier in the sequence, and `HD_CALLBACK_DONE` exactly
when one does, whatever follows that `haptic_stop` (a further `haptic_init`
and `haptic_start` included). -/
theorem servo_continues_iff_never_stopped (earlier : List Op) (fr : Frame) :
    ((servoCallback fr (run earlier initState).1).ret = HDCallbackCode.HD_CALLBACK_CONTINUE ↔
      ∀ op ∈ earlier, op.isStop = false) ∧
    ((servoCallback fr (run earlier initState).1).ret = HDCallbackCode.HD_CALLBACK_DONE ↔
      ∃ op ∈ earlier, op.isStop = true) := by
  have hrun := run_running earlier initState
  have hinit : initState.running = true := rfl
  rw [hinit, Bool.true_and] at hrun
  simp only [servoCallback, hrun]
  constructor
  · cases hall : earlier.all (fun op => !op.isStop)
    · simp only [Bool.false_eq_true, if_false]
      simp only [List.all_eq_false] at hall
      obtain ⟨op, hmem, hop⟩ := hall
      constructor
      · intro h; cases h
      · intro h
        simp [h op hmem] at hop
    · simp only [if_true, true_iff]
      simp only [List.all_eq_true] at hall
      intro op hmem
      simpa using hall op hmem
  · cases hall : earlier.all (fun op => !op.isStop)
    · simp only [Bool.false_eq_true, if_false, true_iff]
      simp only [List.all_eq_false] at hall
      obtain ⟨op, hmem, hop⟩ := hall
      exact ⟨op, hmem, by simpa using hop⟩
    · simp only [if_true]
      simp only [List.all_eq_true] at hall
      constructor
      · intro h; cases h
      · rintro ⟨op, hmem, hop⟩
        have := hall op hmem
        simp [hop] at this

/-! ## The sample copy, statement by statement -/

/-- The five stores, run in order with nothing in between, leave in
`g_lastSample` what `servoCallback` leaves there. -/
theorem servo_sample_by_stores (fr : Frame) (s : State) :
    (servoCallback fr s).state.g_lastSample =
      storeField 4 fr (storeField 3 fr (storeField 2 fr (storeField 1 fr
        (storeField 0 fr s.g_lastSample)))) ∧
    (servoCallback fr s).state.g_lastSample = fr.sample := by
  constructor <;> rfl

/-- The five loads, run in order with nothing in between, fill the caller's
struct with what `haptic_get_sample` returns. -/
theorem get_sample_by_loads (s : State) (out : Sample) :
    haptic_get_sample s =
      loadField 4 s.g_lastSample (loadField 3 s.g_lastSample (loadField 2 s.g_lastSample
        (loadField 1 s.g_lastSample (loadField 0 s.g_lastSample out)))) := by
  rfl

/-- C1 at a concrete input: the force `(3, 0, -5)` commanded in `readyState`
with no error pending. -/
theorem haptic_set_force_clamps_witness :
    readyState.g_hHD ≠ HD_INVALID_HANDLE ∧
    ¬ (HD_DEVICE_ERROR noError = true ∧ noError.errorCode = 1024) ∧
    ∃ w : Vec3, forceWrites (haptic_set_force ⟨3, 0, -5⟩ noError noError readyState).trace = [w] ∧
      ∀ i : Fin 3,
        (|(⟨3, 0, -5⟩ : Vec3).get i| > 2 →
          w.get i = 2 * (SignType.sign ((⟨3, 0, -5⟩ : Vec3).get i) : ℚ)) ∧
        (|(⟨3, 0, -5⟩ : Vec3).get i| ≤ 2 → w.get i = (⟨3, 0, -5⟩ : Vec3).get i) ∧
        -2 ≤ w.get i ∧ w.get i ≤ 2 :=
  ⟨by decide, by decide,
    haptic_set_force_clamps ⟨3, 0, -5⟩ noError noError readyState (by decide) (by decide)⟩

/-- C3 as amended, at a concrete input: a force commanded in `warmedState`
while the device reports the warm-motor fault to the call's own query. -/
theorem haptic_set_force_skips_on_own_query_witness :
    warmedState.g_hHD ≠ HD_INVALID_HANDLE ∧
    HD_DEVICE_ERROR warmError = true ∧
    warmError.errorCode = 1024 ∧
    (haptic_set_force ⟨1, 0, 0⟩ warmError noError warmedState).state = warmedState ∧
    (haptic_set_force ⟨1, 0, 0⟩ warmError noError warmedState).trace =
      [Call.hdGetError, Call.stderr Msg.warnSkipForce] ∧
    forceWrites (haptic_set_force ⟨1, 0, 0⟩ warmError noError warmedState).trace = [] :=
  ⟨by decide, by decide, by decide,
    haptic_set_force_skips_on_own_query ⟨1, 0, 0⟩ warmError noError warmedState
      (by decide) (by decide) (by decide)⟩

/-- C4 at a concrete input: two warm frames and then a calm one, from the
initial globals. -/
theorem warm_streak_then_reset_witness :
    2 ≤ 1000 ∧ [warmFrame, warmFrame].length = 2 ∧
    (∀ fr ∈ [warmFrame, warmFrame], fr.isWarm = true) ∧ calmFrame.isWarm = false ∧
    initState.warmMotorCount = 0 ∧
    (run ([warmFrame, warmFrame].map Op.servo) initState).1.warmMotorCount = (2 : Nat) ∧
    (run ([warmFrame, warmFrame].map Op.servo ++ [Op.servo calmFrame]) initState).1.warmMotorCount
      = 0 ∧
    List.count Call.hdDisableForceOutput
      (run ([warmFrame, warmFrame].map Op.servo ++ [Op.servo calmFrame]) initState).2 = 0 :=
  ⟨by decide, by decide, by decide, by decide, by decide,
    warm_streak_then_reset 2 [warmFrame, warmFrame] calmFrame initState
      (by decide) (by decide) (by decide) (by decide) (by decide)⟩

/-- C2 as amended, at a concrete input: 1001 copies of `warmFrame` from the
initial globals. -/
theorem warm_1001_frames_disable_once_witness :
    (List.replicate 1001 warmFrame).length = 1001 ∧
    initState.warmMotorCount = 0 ∧
    (run (((List.replicate 1001 warmFrame).take 1000).map Op.servo) initState).1.warmMotorCount
      = 1000 ∧
    List.count Call.hdDisableForceOutput
      (run (((List.replicate 1001 warmFrame).take 1000).map Op.servo) initState).2 = 0 ∧
    (run ((List.replicate 1001 warmFrame).map Op.servo) initState).1.warmMotorCount = 0 ∧
    List.count Call.hdDisableForceOutput
      (run ((List.replicate 1001 warmFrame).map Op.servo) initState).2 = 1 :=
  ⟨List.length_replicate 1001 warmFrame, by decide,
    warm_1001_frames_disable_once (List.replicate 1001 warmFrame) initState
      (List.length_replicate 1001 warmFrame)
      (fun fr hfr => by rw [List.eq_of_mem_replicate hfr]; decide)
      (by decide)⟩

/-- C6 at a concrete input: `haptic_stop` in `readyState`, with the scheduler
stop reporting an error. -/
theorem haptic_stop_teardown_order_witness :
    readyState.g_hCallback ≠ 0 ∧ readyState.g_hHD ≠ HD_INVALID_HANDLE ∧
    commands (haptic_stop noError writeFault noError readyState).trace =
      [Call.hdUnschedule readyState.g_hCallback, Call.hdStopScheduler,
       Call.hdDisableDevice readyState.g_hHD] :=
  ⟨by decide, by decide,
    haptic_stop_teardown_order noError writeFault noError readyState (by decide) (by decide)⟩

/-- C7 at a concrete input: `sampleRun`, which holds two servo frames, from the
initial globals. -/
theorem sample_count_counts_frames_witness :
    2 < 2 ^ 64 ∧ countServo sampleRun = 2 ∧ initState.g_sampleCounter = 0 ∧
    haptic_get_sample_count (run sampleRun initState).1 = 2 ∧
    ∀ (before : List Op) (op : Op) (after : List Op), sampleRun = before ++ op :: after →
      haptic_get_sample_count (run (before ++ [op]) initState).1 =
        haptic_get_sample_count (run before initState).1 + (if op.isServo then 1 else 0) :=
  ⟨by decide, by decide, by decide,
    sample_count_counts_frames 2 sampleRun initState (by decide) (by decide) (by decide)⟩

/-- C8 at a concrete input: the force `(3, 0, -5)` commanded in `readyState`,
the device reporting `writeFault` after the write frame. -/
theorem haptic_set_force_records_write_error_witness :
    readyState.g_hHD ≠ HD_INVALID_HANDLE ∧
    ¬ (HD_DEVICE_ERROR noError = true ∧ noError.errorCode = 1024) ∧
    HD_DEVICE_ERROR writeFault = true ∧
    (haptic_set_force ⟨3, 0, -5⟩ noError writeFault readyState).state =
      { readyState with
        g_lastSample :=
          { pos := readyState.g_lastSample.pos
            force := readyState.g_lastSample.force
            buttons := readyState.g_lastSample.buttons
            errorCode := writeFault.errorCode
            internalErrorCode := writeFault.internalErrorCode } } ∧
    (haptic_set_force ⟨3, 0, -5⟩ noError writeFault readyState).ret = () :=
  ⟨by decide, by decide, by decide,
    haptic_set_force_records_write_error ⟨3, 0, -5⟩ noError writeFault readyState
      (by decide) (by decide) (by decide)⟩

end Haptic
